import Mathlib

/-!
Shallow embedding of the chronic-disease monitoring pipeline
(scripts/load_data.py, scripts/process_patients.py, scripts/risk_scoring.py,
scripts/generate_report.py).

Conventions of the embedding:
* A pandas DataFrame is modelled as a Lean list of typed rows.  A DataFrame
  built from an empty list of records has no columns, so a column access on
  it raises KeyError; the embedding models such an access as Except.error.
* A missing JSON field is an Option that is none; the defensive
  dict.get(key, default) chains of the source become Option.getD.
* Numeric observation values are rationals; a missing value (NaN in the
  float column) is none.  A pandas comparison of NaN with a number is
  False, which the embedding renders as the none branch evaluating to
  false.
* Python code that can raise (list indexing on an empty list, a column
  access on an empty frame) is embedded in the Except String monad.
-/

/-- Calendar date (year, month, day), standing for Python datetime values. -/
structure PDate where
  year : Nat
  month : Nat
  day : Nat
  deriving DecidableEq, Repr

/-- Python str.split(c): split a character list on a separator character.
The result is always non-empty; splitting the empty list yields one empty
piece, exactly as in Python. -/
def pySplit (c : Char) : List Char → List (List Char)
  | [] => [[]]
  | ch :: rest =>
    if ch = c then [] :: pySplit c rest
    else
      match pySplit c rest with
      | [] => [[ch]]
      | g :: gs => (ch :: g) :: gs

/-- Extraction of the patient foreign key from a FHIR reference string,
embedding patient_ref.split('/')[-1] if patient_ref else '' from
load_data.py. -/
def extractPatientId (ref : String) : String :=
  if ref = "" then "" else String.mk ((pySplit '/' ref.data).getLastD [])

/-- Python list[0] applied to an optional JSON array field whose absent
default is a one-element list holding dflt: an absent field yields the
default element, a present empty list raises IndexError, and a present
non-empty list yields its first element. -/
def getIndex0 (field : Option (List α)) (dflt : α) : Except String α :=
  match field with
  | none => .ok dflt
  | some [] => .error "IndexError: list index out of range"
  | some (x :: _) => .ok x

/-- Raw FHIR name sub-record as consumed by normalize_patients. -/
structure RawName where
  given : Option (List String)
  family : Option String
  deriving DecidableEq, Repr

/-- Raw FHIR address sub-record as consumed by normalize_patients. -/
structure RawAddress where
  city : Option String
  state : Option String
  postalCode : Option String
  deriving DecidableEq, Repr

/-- Raw FHIR patient resource: every field the normalizer reads, each
optional since the source reads them with dict.get. -/
structure RawPatient where
  id : Option String
  name : Option (List RawName)
  gender : Option String
  birthDate : Option String
  address : Option (List RawAddress)
  deriving DecidableEq, Repr

/-- Flat patient row produced by normalize_patients. -/
structure PatientRow where
  patient_id : String
  full_name : String
  family_name : String
  given_name : String
  gender : String
  birthdate : String
  city : String
  state : String
  postal_code : String
  deriving DecidableEq, Repr

/-- Normalization of one raw patient record (body of the loop in
normalize_patients).  patient.get('name', [{}])[0] and
patient.get('address', [{}])[0] are embedded with getIndex0, so a record
whose name or address field is a present empty list raises IndexError. -/
def normalize_patient (p : RawPatient) : Except String PatientRow := do
  let name ← getIndex0 p.name { given := none, family := none }
  let family_name := name.family.getD ""
  let given_names := name.given.getD [""]
  let full_name := String.intercalate " " given_names ++ " " ++ family_name
  let addr ← getIndex0 p.address { city := none, state := none, postalCode := none }
  return { patient_id := p.id.getD ""
           full_name := full_name
           family_name := family_name
           given_name := given_names.headD ""
           gender := p.gender.getD ""
           birthdate := p.birthDate.getD ""
           city := addr.city.getD ""
           state := addr.state.getD ""
           postal_code := addr.postalCode.getD "" }

/-- normalize_patients from load_data.py: the loop over the raw patient
collection, propagating any exception raised for a record. -/
def normalize_patients : List RawPatient → Except String (List PatientRow)
  | [] => .ok []
  | p :: ps => do
    let r ← normalize_patient p
    let rs ← normalize_patients ps
    return r :: rs

/-- Raw FHIR codeable-concept sub-record (only the text field is read). -/
structure RawCode where
  text : Option String
  deriving DecidableEq, Repr

/-- Raw FHIR quantity sub-record as read from valueQuantity. -/
structure RawQuantity where
  value : Option ℚ
  unit : Option String
  deriving DecidableEq, Repr

/-- Raw FHIR reference sub-record as read from subject or patient. -/
structure RawReference where
  reference : Option String
  deriving DecidableEq, Repr

/-- Raw FHIR observation resource as consumed by normalize_observations. -/
structure RawObservation where
  id : Option String
  status : Option String
  code : Option RawCode
  valueQuantity : Option RawQuantity
  effectiveDateTime : Option String
  subject : Option RawReference
  deriving DecidableEq, Repr

/-- Flat observation row produced by normalize_observations. -/
structure ObsRow where
  observation_id : String
  status : String
  code : String
  value : Option ℚ
  unit : String
  date : String
  patient_id : String
  deriving DecidableEq, Repr

/-- Normalization of one raw observation record; every access is a
defensive dict.get chain, so this never raises. -/
def normalize_observation (o : RawObservation) : ObsRow :=
  { observation_id := o.id.getD ""
    status := o.status.getD ""
    code := ((o.code.getD { text := none }).text).getD ""
    value := (o.valueQuantity.getD { value := none, unit := none }).value
    unit := ((o.valueQuantity.getD { value := none, unit := none }).unit).getD ""
    date := o.effectiveDateTime.getD ""
    patient_id := extractPatientId ((o.subject.getD { reference := none }).reference.getD "") }

/-- normalize_observations from load_data.py. -/
def normalize_observations (os : List RawObservation) : List ObsRow :=
  os.map normalize_observation

/-- Raw FHIR medication request resource as consumed by
normalize_medications. -/
structure RawMedication where
  id : Option String
  status : Option String
  medicationCodeableConcept : Option RawCode
  subject : Option RawReference
  authoredOn : Option String
  deriving DecidableEq, Repr

/-- Flat medication row produced by normalize_medications. -/
structure MedRow where
  medication_id : String
  status : String
  medication_name : String
  date : String
  patient_id : String
  deriving DecidableEq, Repr

/-- Normalization of one raw medication record; never raises. -/
def normalize_medication (m : RawMedication) : MedRow :=
  { medication_id := m.id.getD ""
    status := m.status.getD ""
    medication_name := ((m.medicationCodeableConcept.getD { text := none }).text).getD ""
    date := m.authoredOn.getD ""
    patient_id := extractPatientId ((m.subject.getD { reference := none }).reference.getD "") }

/-- normalize_medications from load_data.py. -/
def normalize_medications (ms : List RawMedication) : List MedRow :=
  ms.map normalize_medication

/-- Raw FHIR allergy reaction sub-record. -/
structure RawReaction where
  manifestation : Option (List RawCode)
  deriving DecidableEq, Repr

/-- Raw FHIR allergy-intolerance resource as consumed by
normalize_allergies. -/
structure RawAllergy where
  id : Option String
  clinicalStatus : Option RawCode
  code : Option RawCode
  reaction : Option (List RawReaction)
  patient : Option RawReference
  deriving DecidableEq, Repr

/-- Flat allergy row produced by normalize_allergies. -/
structure AllergyRow where
  allergy_id : String
  status : String
  allergy_type : String
  manifestation : String
  patient_id : String
  deriving DecidableEq, Repr

/-- Normalization of one raw allergy record.  The source computes
reactions[0].get('manifestation', [{}])[0].get('text', '') when the
reaction list (defaulted to [{}]) is non-empty, so a present empty
manifestation list raises IndexError. -/
def normalize_allergy (a : RawAllergy) : Except String AllergyRow := do
  let reactions := a.reaction.getD [{ manifestation := none }]
  let manifestation ←
    match reactions with
    | [] => pure ""
    | r0 :: _ => do
      let m0 ← getIndex0 r0.manifestation { text := none }
      pure (m0.text.getD "")
  return { allergy_id := a.id.getD ""
           status := ((a.clinicalStatus.getD { text := none }).text).getD ""
           allergy_type := ((a.code.getD { text := none }).text).getD ""
           manifestation := manifestation
           patient_id := extractPatientId ((a.patient.getD { reference := none }).reference.getD "") }

/-- normalize_allergies from load_data.py. -/
def normalize_allergies : List RawAllergy → Except String (List AllergyRow)
  | [] => .ok []
  | a :: as' => do
    let r ← normalize_allergy a
    let rs ← normalize_allergies as'
    return r :: rs

/-- Raw top-level FHIR document: the four optional collections read by
load_and_normalize_data (data.get('patients', []) and so on). -/
structure RawData where
  patients : Option (List RawPatient)
  observations : Option (List RawObservation)
  medications : Option (List RawMedication)
  allergies : Option (List RawAllergy)
  deriving DecidableEq, Repr

/-- load_and_normalize_data from load_data.py: normalize the four
collections in source order, treating an absent collection as empty. -/
def load_and_normalize_data (d : RawData) :
    Except String (List PatientRow × List ObsRow × List MedRow × List AllergyRow) := do
  let ps ← normalize_patients (d.patients.getD [])
  let os := normalize_observations (d.observations.getD [])
  let ms := normalize_medications (d.medications.getD [])
  let als ← normalize_allergies (d.allergies.getD [])
  return (ps, os, ms, als)

/-- Gregorian leap-year test, as applied by datetime validity checking. -/
def isLeapYear (y : Nat) : Bool :=
  (y % 4 == 0 && y % 100 != 0) || (y % 400 == 0)

/-- Number of days in a month of a given year. -/
def daysInMonth (y m : Nat) : Nat :=
  if m = 2 then (if isLeapYear y then 29 else 28)
  else if m = 4 ∨ m = 6 ∨ m = 9 ∨ m = 11 then 30
  else 31

/-- Value of a list of decimal digit characters. -/
def digitsToNat (s : List Char) : Nat :=
  s.foldl (fun a c => a * 10 + (c.toNat - 48)) 0

/-- Validity and value of one numeric date component: all digits, length
between lo and hi characters. -/
def validComponent (lo hi : Nat) (s : List Char) : Bool :=
  decide (lo ≤ s.length) && decide (s.length ≤ hi) && s.all (·.isDigit)

/-- datetime.strptime(birthdate, '%Y-%m-%d') as a validating parser: a
four-digit year, a one-or-two-digit month in 1..12, and a
one-or-two-digit day that exists in that month of that year; anything
else is a ValueError, rendered as none. -/
def parseDate (s : String) : Option PDate :=
  match pySplit '-' s.data with
  | [ys, ms, ds] =>
    if validComponent 4 4 ys && validComponent 1 2 ms && validComponent 1 2 ds then
      let y := digitsToNat ys
      let m := digitsToNat ms
      let d := digitsToNat ds
      if 1 ≤ m ∧ m ≤ 12 ∧ 1 ≤ d ∧ d ≤ daysInMonth y m then some ⟨y, m, d⟩ else none
    else none
  | _ => none

/-- Python lexicographic comparison of (month, day) pairs, used by the
has-the-birthday-occurred-yet test in calculate_age. -/
def tupLt (a b : Nat × Nat) : Bool :=
  decide (a.1 < b.1) || (decide (a.1 = b.1) && decide (a.2 < b.2))

/-- calculate_age from process_patients.py, parameterized by the current
processing date standing for datetime.now().  An empty or unparsable
birthdate yields none. -/
def calculate_age (today : PDate) (birthdate : String) : Option Int :=
  if birthdate = "" then none
  else
    match parseDate birthdate with
    | none => none
    | some b =>
      some ((today.year : Int) - (b.year : Int) -
        (if tupLt (today.month, today.day) (b.month, b.day) then 1 else 0))

/-- pd.cut(age, bins=[0, 18, 35, 50, 65, 120], labels=[...], right=False):
left-closed right-open bins; an age that is missing or falls outside
[0, 120) gets no label (NaN). -/
def age_group_of (a : Option Int) : Option String :=
  match a with
  | none => none
  | some a =>
    if 0 ≤ a ∧ a < 18 then some "0-18"
    else if 18 ≤ a ∧ a < 35 then some "19-35"
    else if 35 ≤ a ∧ a < 50 then some "36-50"
    else if 50 ≤ a ∧ a < 65 then some "51-65"
    else if 65 ≤ a ∧ a < 120 then some "65+"
    else none

/-- Patient row with the two derived columns added by
enrich_patient_data. -/
structure EnrichedRow where
  base : PatientRow
  age : Option Int
  age_group : Option String
  deriving DecidableEq, Repr

/-- Per-row body of enrich_patient_data: derive age and age_group. -/
def enrichRow (today : PDate) (p : PatientRow) : EnrichedRow :=
  { base := p
    age := calculate_age today p.birthdate
    age_group := age_group_of (calculate_age today p.birthdate) }

/-- enrich_patient_data from process_patients.py.  A DataFrame built from
an empty patient list has no columns, so the access df['birthdate']
raises KeyError; otherwise the derived columns are added row by row. -/
def enrich_patient_data (today : PDate) (ps : List PatientRow) :
    Except String (List EnrichedRow) :=
  if ps.isEmpty then .error "KeyError: birthdate"
  else .ok (ps.map (enrichRow today))

/-- Insertion step of a stable sort: x is placed immediately before the
first element y for which sb x y holds (sb meaning x must sort strictly
before y). -/
def stableInsert (sb : α → α → Bool) (x : α) : List α → List α
  | [] => [x]
  | y :: ys => if sb x y then x :: y :: ys else y :: stableInsert sb x ys

/-- Stable sort by repeated insertion, processing the input left to
right; elements that do not compare strictly keep their input order. -/
def stableSort (sb : α → α → Bool) (l : List α) : List α :=
  l.foldl (fun acc x => stableInsert sb x acc) []

/-- Lexicographic comparison of character lists, mirroring the
lexicographic string comparison that Python and pandas use on the
zero-padded ISO date strings and patient keys.  (Core String.decidableLT
runs over byte iterators and does not reduce in the kernel, so the
embedding compares the character lists directly.) -/
def charListLt : List Char → List Char → Bool
  | [], [] => false
  | [], _ :: _ => true
  | _ :: _, [] => false
  | a :: as', b :: bs =>
    if a < b then true else if b < a then false else charListLt as' bs

/-- Lexicographic string comparison on the underlying character lists. -/
def pyStrLt (a b : String) : Bool := charListLt a.data b.data

/-- Distinct values of a string list in ascending lexicographic order,
modelling the sorted group keys produced by groupby and the
lexicographically sorted key union of an outer merge. -/
def distinctAsc (l : List String) : List String :=
  stableSort (fun a b => pyStrLt a b) l.dedup

/-- Python str.lower as applied to the observation test names.  Core
String.toLower is defined by a recursion that the kernel cannot unfold,
so the embedding maps Char.toLower over the characters; on the ASCII
test names of this pipeline the two functions agree. -/
def pyLower (s : String) : String := String.mk (s.data.map Char.toLower)

/-- One row of a per-test latest-lab series (latest_hba1c or
latest_cholesterol in risk_scoring.py). -/
structure SeriesRow where
  patient_id : String
  value : Option ℚ
  date : String
  deriving DecidableEq, Repr

/-- The group of one patient within one per-test series: the matching
observations of that patient, sorted by date descending (the effect of
sort_values by patient_id ascending then date descending followed by
groupby(patient_id) on that patient key). -/
def sortedGroup (codeLower : String) (obs : List ObsRow) (pid : String) : List ObsRow :=
  stableSort (fun a b => pyStrLt b.date a.date)
    ((obs.filter (fun o => pyLower o.code == codeLower)).filter (fun o => o.patient_id == pid))

/-- The series row of one patient: groupby(patient_id).first() takes the
first non-null entry of each column of the date-descending group, so the
date column (never null) yields the maximum date while the value column
yields the value of the most recent row whose value is non-null. -/
def seriesRowFor (codeLower : String) (obs : List ObsRow) (pid : String) : SeriesRow :=
  { patient_id := pid
    value := ((sortedGroup codeLower obs pid).filterMap (fun o => o.value)).head?
    date := ((sortedGroup codeLower obs pid).map (fun o => o.date)).headD "" }

/-- One per-test series of get_latest_lab_values: filter observations
whose code lowercases to codeLower, then resolve one row per distinct
patient key (groupby sorts its keys). -/
def latest_series (codeLower : String) (obs : List ObsRow) : List SeriesRow :=
  (distinctAsc ((obs.filter (fun o => pyLower o.code == codeLower)).map
    (fun o => o.patient_id))).map (seriesRowFor codeLower obs)

/-- Output row of get_latest_lab_values after the outer merge of the two
series on patient_id. -/
structure LabRow where
  patient_id : String
  hba1c_value : Option ℚ
  hba1c_date : Option String
  cholesterol_value : Option ℚ
  cholesterol_date : Option String
  deriving DecidableEq, Repr

/-- One output row of the outer merge on patient_id: look up the unique
series row of each side (each series is keyed by distinct patient ids),
null-filling the side where the patient is absent. -/
def labRowFor (h c : List SeriesRow) (pid : String) : LabRow :=
  { patient_id := pid
    hba1c_value := (h.find? (fun r => r.patient_id == pid)).bind (fun r => r.value)
    hba1c_date := (h.find? (fun r => r.patient_id == pid)).map (fun r => r.date)
    cholesterol_value := (c.find? (fun r => r.patient_id == pid)).bind (fun r => r.value)
    cholesterol_date := (c.find? (fun r => r.patient_id == pid)).map (fun r => r.date) }

/-- get_latest_lab_values from risk_scoring.py.  A DataFrame built from
an empty observation list has no columns, so the filter access
observations_df['code'] raises KeyError; otherwise the two per-test
series are resolved and outer-merged on patient_id (the outer merge
sorts the union of keys lexicographically). -/
def get_latest_lab_values (obs : List ObsRow) : Except String (List LabRow) :=
  if obs.isEmpty then .error "KeyError: code"
  else
    .ok ((distinctAsc ((latest_series "hemoglobin a1c" obs).map (fun r => r.patient_id) ++
      (latest_series "cholesterol" obs).map (fun r => r.patient_id))).map
      (labRowFor (latest_series "hemoglobin a1c" obs) (latest_series "cholesterol" obs)))

/-- Threshold constant DIABETES_HBA1C_THRESHOLD from risk_scoring.py:
the value 6.5 written as the exact rational 13/2 (numeric Rat literals
built through the Mathlib instances do not reduce in the kernel). -/
def DIABETES_HBA1C_THRESHOLD : ℚ := mkRat 13 2

/-- Threshold constant CARDIOVASCULAR_CHOLESTEROL_THRESHOLD from
risk_scoring.py: the value 240 as an exact rational. -/
def CARDIOVASCULAR_CHOLESTEROL_THRESHOLD : ℚ := mkRat 240 1

/-- Lab row with the diabetes_risk column added. -/
structure DiabRow where
  lab : LabRow
  diabetes_risk : Bool
  deriving DecidableEq, Repr

/-- apply_diabetes_risk_rule from risk_scoring.py: the column
df['hba1c_value'] >= 6.5, where a null value compares False. -/
def apply_diabetes_risk_rule (l : List LabRow) : List DiabRow :=
  l.map (fun r =>
    { lab := r
      diabetes_risk :=
        match r.hba1c_value with
        | some v => decide (v ≥ DIABETES_HBA1C_THRESHOLD)
        | none => false })

/-- Lab row with both risk-flag columns added. -/
structure RuleRow where
  lab : LabRow
  diabetes_risk : Bool
  cardiovascular_risk : Bool
  deriving DecidableEq, Repr

/-- apply_cardiovascular_risk_rule from risk_scoring.py: the column
df['cholesterol_value'] >= 240, where a null value compares False. -/
def apply_cardiovascular_risk_rule (l : List DiabRow) : List RuleRow :=
  l.map (fun r =>
    { lab := r.lab
      diabetes_risk := r.diabetes_risk
      cardiovascular_risk :=
        match r.lab.cholesterol_value with
        | some v => decide (v ≥ CARDIOVASCULAR_CHOLESTEROL_THRESHOLD)
        | none => false })

/-- The fixed risk_categories dictionary of calculate_combined_risk;
Series.map yields null for a key outside the dictionary. -/
def risk_categories (n : Nat) : Option String :=
  match n with
  | 0 => some "Low Risk"
  | 1 => some "Moderate Risk"
  | 2 => some "High Risk"
  | _ => none

/-- Python str.rstrip('; '): remove every trailing character belonging to
the set containing the semicolon and the space. -/
def rstripSemiSpace (s : String) : String :=
  String.mk ((s.data.reverse.dropWhile (fun ch => ch == ';' || ch == ' ')).reverse)

/-- Row of the combined risk table produced by calculate_combined_risk. -/
structure RiskRow where
  rule : RuleRow
  risk_score : Nat
  risk_category : Option String
  risk_reasons : String
  deriving DecidableEq, Repr

/-- Per-row body of calculate_combined_risk: the score accumulates one
point per true flag, the category is looked up in the fixed dictionary,
and the reasons string concatenates one fixed sentence (with a trailing
separator) per triggered rule, diabetes first, before str.rstrip('; ')
trims the trailing separator. -/
def combinedRow (r : RuleRow) : RiskRow :=
  let score := (if r.diabetes_risk then 1 else 0) + (if r.cardiovascular_risk then 1 else 0)
  let reasons :=
    (if r.diabetes_risk then "Diabetes Risk (HbA1c >= 6.5); " else "") ++
    (if r.cardiovascular_risk then "Cardiovascular Risk (Cholesterol >= 240); " else "")
  { rule := r
    risk_score := score
    risk_category := risk_categories score
    risk_reasons := rstripSemiSpace reasons }

/-- calculate_combined_risk from risk_scoring.py. -/
def calculate_combined_risk (l : List RuleRow) : List RiskRow :=
  l.map combinedRow

/-- Row of patients_with_risks_df: the left merge of the enriched patient
table with the combined risk table on patient_id.  A patient with no
matching risk row receives null in every merged column. -/
structure MergedRow where
  e : EnrichedRow
  hba1c_value : Option ℚ
  hba1c_date : Option String
  cholesterol_value : Option ℚ
  cholesterol_date : Option String
  diabetes_risk : Option Bool
  cardiovascular_risk : Option Bool
  risk_score : Option Nat
  risk_category : Option String
  risk_reasons : Option String
  deriving DecidableEq, Repr

/-- One left-merge step: look up the unique risk row (the risk table is
keyed by distinct patient ids) matching this patient, or fill the merged
columns with null. -/
def mergeRow (risks : List RiskRow) (e : EnrichedRow) : MergedRow :=
  match risks.find? (fun r => r.rule.lab.patient_id == e.base.patient_id) with
  | none =>
    { e := e, hba1c_value := none, hba1c_date := none, cholesterol_value := none
      cholesterol_date := none, diabetes_risk := none, cardiovascular_risk := none
      risk_score := none, risk_category := none, risk_reasons := none }
  | some r =>
    { e := e
      hba1c_value := r.rule.lab.hba1c_value
      hba1c_date := r.rule.lab.hba1c_date
      cholesterol_value := r.rule.lab.cholesterol_value
      cholesterol_date := r.rule.lab.cholesterol_date
      diabetes_risk := some r.rule.diabetes_risk
      cardiovascular_risk := some r.rule.cardiovascular_risk
      risk_score := some r.risk_score
      risk_category := r.risk_category
      risk_reasons := some r.risk_reasons }

/-- The risk_summary dictionary of score_patient_risks. -/
structure RiskSummary where
  total_patients : Nat
  diabetes_risk_count : Nat
  cardiovascular_risk_count : Nat
  risk_category_counts : List (String × Nat)
  diabetes_risk_percentage : Option ℚ
  cardiovascular_risk_percentage : Option ℚ
  deriving DecidableEq, Repr

/-- value_counts().to_dict() on the risk_category column: null categories
are dropped and each remaining distinct category maps to its number of
occurrences.  The mapping is modelled as an association list whose entry
order is immaterial (a Python dict). -/
def value_counts_categories (rows : List MergedRow) : List (String × Nat) :=
  let cats := rows.filterMap (fun r => r.risk_category)
  cats.dedup.map (fun c => (c, cats.count c))

/-- Sum of the values of a category-count mapping. -/
def sumCounts (l : List (String × Nat)) : Nat :=
  (l.map (fun p => p.2)).sum

/-- Construction of the risk_summary dictionary from
patients_with_risks_df.  Column .sum() skips nulls, so each risk count
counts the rows whose flag is a non-null True.  The percentage
expression (count / len(df)) * 100 divides by the row count with no
guard; with zero rows NumPy evaluates 0 / 0 to NaN, modelled as none. -/
def make_summary (merged : List MergedRow) : RiskSummary :=
  let dc := merged.countP (fun r => r.diabetes_risk == some true)
  let cc := merged.countP (fun r => r.cardiovascular_risk == some true)
  { total_patients := merged.length
    diabetes_risk_count := dc
    cardiovascular_risk_count := cc
    risk_category_counts := value_counts_categories merged
    diabetes_risk_percentage :=
      if merged.length = 0 then none
      else some ((dc : ℚ) / (merged.length : ℚ) * 100)
    cardiovascular_risk_percentage :=
      if merged.length = 0 then none
      else some ((cc : ℚ) / (merged.length : ℚ) * 100) }

/-- score_patient_risks from risk_scoring.py, parameterized by the
current processing date and the raw input document: load and normalize,
enrich patients, resolve latest labs, apply both rules, combine, left
merge onto the enriched patients, and build the summary. -/
def score_patient_risks (today : PDate) (d : RawData) :
    Except String (List MergedRow × RiskSummary) := do
  let (patients_df, observations_df, _, _) ← load_and_normalize_data d
  let enriched ← enrich_patient_data today patients_df
  let latest_labs ← get_latest_lab_values observations_df
  let risk_df := calculate_combined_risk
    (apply_cardiovascular_risk_rule (apply_diabetes_risk_rule latest_labs))
  let merged := enriched.map (mergeRow risk_df)
  return (merged, make_summary merged)

/-- filter_high_risk_patients from generate_report.py: keep the rows with
risk_score > 0 (a null score compares False and is dropped) and sort by
risk_score descending. -/
def filter_high_risk_patients (rows : List MergedRow) : List MergedRow :=
  let hr := rows.filter (fun r =>
    match r.risk_score with
    | some n => decide (0 < n)
    | none => false)
  stableSort (fun a b => decide (b.risk_score.getD 0 < a.risk_score.getD 0)) hr

/-- Fixed processing date used by the concrete runs: 2026-10-12. -/
def d2026 : PDate := ⟨2026, 10, 12⟩

/-- Observation-row constructor for concrete runs of the lab resolver. -/
def mkObs (pid code date : String) (v : Option ℚ) : ObsRow :=
  { observation_id := "", status := "", code := code, value := v, unit := ""
    date := date, patient_id := pid }

/-- Well-formed raw patient record used by concrete runs. -/
def rawPatientA : RawPatient :=
  { id := some "p-1"
    name := some [{ given := some ["Ann"], family := some "Lee" }]
    gender := some "female"
    birthDate := some "1990-01-01"
    address := none }

/-- Raw observation for patient p-1 with a non-tracked test code. -/
def rawObsWeight : RawObservation :=
  { id := some "o-1", status := some "final"
    code := some { text := some "Body Weight" }
    valueQuantity := some { value := some (mkRat 70 1), unit := some "kg" }
    effectiveDateTime := some "2023-01-01"
    subject := some { reference := some "Patient/p-1" } }

/-- Raw glycemic-marker observation for patient p-1, value 7.0. -/
def rawObsHbA1c : RawObservation :=
  { id := some "o-2", status := some "final"
    code := some { text := some "Hemoglobin A1c" }
    valueQuantity := some { value := some (mkRat 7 1), unit := some "%" }
    effectiveDateTime := some "2023-01-01"
    subject := some { reference := some "Patient/p-1" } }

/-- Raw glycemic-marker observation belonging to patient p-2. -/
def rawObsHbA1cP2 : RawObservation :=
  { id := some "o-3", status := some "final"
    code := some { text := some "Hemoglobin A1c" }
    valueQuantity := some { value := some (mkRat 7 1), unit := some "%" }
    effectiveDateTime := some "2023-01-01"
    subject := some { reference := some "Patient/p-2" } }

/-- Input with zero patients but a non-empty observation collection. -/
def c1Data : RawData :=
  { patients := some [], observations := some [rawObsHbA1c]
    medications := none, allergies := none }

/-- Input with one patient whose only observation has a non-tracked
test code. -/
def c2Data : RawData :=
  { patients := some [rawPatientA], observations := some [rawObsWeight]
    medications := none, allergies := none }

/-- Input with one patient and one matching glycemic observation. -/
def c2wData : RawData :=
  { patients := some [rawPatientA], observations := some [rawObsHbA1c]
    medications := none, allergies := none }

/-- Input whose single patient p-1 has no observation at all (the only
observation in the collection belongs to p-2). -/
def c3Data : RawData :=
  { patients := some [rawPatientA], observations := some [rawObsHbA1cP2]
    medications := none, allergies := none }

/-- Run of the pipeline on c3Data, projected out of the Except. -/
def c3Run : List MergedRow × RiskSummary :=
  ((score_patient_risks d2026 c3Data).toOption).getD ([], make_summary [])

/-- Placeholder merged row used as a headD default in closed witnesses. -/
def dummyMerged : MergedRow :=
  mergeRow [] (enrichRow d2026
    { patient_id := "", full_name := "", family_name := "", given_name := ""
      gender := "", birthdate := "", city := "", state := "", postal_code := "" })

/-- Raw patient record whose name field is a present empty list. -/
def rawPatientEmptyName : RawPatient :=
  { id := some "p-3", name := some [], gender := none, birthDate := none, address := none }

/-- Well-formed raw allergy record used by concrete runs. -/
def rawAllergyOk : RawAllergy :=
  { id := some "a-1"
    clinicalStatus := some { text := some "active" }
    code := some { text := some "Peanut" }
    reaction := some [{ manifestation := some [{ text := some "Hives" }] }]
    patient := some { reference := some "Patient/p-1" } }

/-- Latest-lab row for a patient with a glycemic value only. -/
def labP1 : LabRow :=
  { patient_id := "p-1", hba1c_value := some (mkRat 7 1), hba1c_date := some "2023-01-01"
    cholesterol_value := none, cholesterol_date := none }

/-- Patient born 1906-01-01: exactly 120 years old on the processing
date 2026-10-12, with a valid birthdate. -/
def patient120 : PatientRow :=
  { patient_id := "p-9", full_name := " Old", family_name := "Old", given_name := ""
    gender := "", birthdate := "1906-01-01", city := "", state := "", postal_code := "" }

/-- Patient born 2008-10-12: exactly 18 years old on the processing
date 2026-10-12. -/
def patient18 : PatientRow :=
  { patient_id := "p-8", full_name := " Teen", family_name := "Teen", given_name := ""
    gender := "", birthdate := "2008-10-12", city := "", state := "", postal_code := "" }

/-- Glycemic observation dated 2023-06-01 whose value is absent. -/
def oNullJun : ObsRow := mkObs "p-1" "Hemoglobin A1c" "2023-06-01" none

/-- Glycemic observation dated 2023-01-01 with value 7. -/
def oSevenJan : ObsRow := mkObs "p-1" "Hemoglobin A1c" "2023-01-01" (some (mkRat 7 1))

/-- Glycemic observation dated 2023-01-01 with value 6. -/
def oJan : ObsRow := mkObs "p-1" "Hemoglobin A1c" "2023-01-01" (some (mkRat 6 1))

/-- Glycemic observation dated 2023-06-01 with value 8. -/
def oJun : ObsRow := mkObs "p-1" "Hemoglobin A1c" "2023-06-01" (some (mkRat 8 1))

/-- Lipid observation for patient p-2. -/
def oCholP2 : ObsRow := mkObs "p-2" "Cholesterol" "2023-03-01" (some (mkRat 250 1))

/-- Raw observation whose subject reference has no path separator. -/
def rawObsBadRef : RawObservation :=
  { id := none, status := none, code := none, valueQuantity := none
    effectiveDateTime := none, subject := some { reference := some "patient-7" } }

/-- Input with one patient and an absent observations collection. -/
def c10wData : RawData :=
  { patients := some [rawPatientA], observations := none
    medications := none, allergies := none }

/-- Run of the pipeline on c2wData, projected out of the Except. -/
def c2wRun : List MergedRow × RiskSummary :=
  ((score_patient_risks d2026 c2wData).toOption).getD ([], make_summary [])

/-- Combined risk table computed from the single lab row labP1. -/
def c5Run : List RiskRow :=
  calculate_combined_risk (apply_cardiovascular_risk_rule (apply_diabetes_risk_rule [labP1]))

/-- Placeholder risk row used as a headD default in closed witnesses. -/
def dummyRisk : RiskRow :=
  combinedRow { lab := labP1, diabetes_risk := false, cardiovascular_risk := false }

/-- Lab resolver output on the three-observation example, projected out
of the Except. -/
def c7Run : List LabRow :=
  (get_latest_lab_values [oJan, oJun, oCholP2]).toOption.getD []

/-- Placeholder lab row used as a headD default in closed witnesses. -/
def dummyLab : LabRow :=
  { patient_id := "", hba1c_value := none, hba1c_date := none
    cholesterol_value := none, cholesterol_date := none }

theorem mem_stableInsert {sb : α → α → Bool} {x y : α} {l : List α} :
    x ∈ stableInsert sb y l ↔ x = y ∨ x ∈ l := by
  induction l with
  | nil => simp [stableInsert]
  | cons z zs ih =>
    rw [stableInsert]
    by_cases h : sb y z
    · simp [h]
    · simp only [h, if_neg, Bool.false_eq_true, ite_false, List.mem_cons, ih]
      tauto

theorem mem_stableSort {sb : α → α → Bool} {x : α} {l : List α} :
    x ∈ stableSort sb l ↔ x ∈ l := by
  have aux : ∀ (acc : List α), x ∈ l.foldl (fun acc y => stableInsert sb y acc) acc ↔
      x ∈ acc ∨ x ∈ l := by
    induction l with
    | nil => simp
    | cons z zs ih =>
      intro acc
      rw [List.foldl_cons, ih (stableInsert sb z acc)]
      rw [mem_stableInsert]
      simp only [List.mem_cons]
      tauto
  rw [stableSort, aux []]
  simp

theorem pairwise_stableInsert {β : Type} [LinearOrder β] (k : α → β) (sb : α → α → Bool)
    (hsb : ∀ a b, sb a b = true ↔ k b < k a) (x : α) (l : List α)
    (h : l.Pairwise (fun a b => k b ≤ k a)) :
    (stableInsert sb x l).Pairwise (fun a b => k b ≤ k a) := by
  induction l with
  | nil => simp [stableInsert]
  | cons y ys ih =>
    rw [stableInsert]
    rcases List.pairwise_cons.mp h with ⟨hy, hys⟩
    by_cases hxy : k y < k x
    · rw [if_pos ((hsb x y).mpr hxy)]
      refine List.pairwise_cons.mpr ⟨?_, h⟩
      intro z hz
      rcases List.mem_cons.mp hz with rfl | hz'
      · exact le_of_lt hxy
      · exact le_trans (hy z hz') (le_of_lt hxy)
    · rw [if_neg (fun hc => hxy ((hsb x y).mp hc))]
      refine List.pairwise_cons.mpr ⟨?_, ih hys⟩
      intro z hz
      rcases mem_stableInsert.mp hz with rfl | hz'
      · exact le_of_not_lt hxy
      · exact hy z hz'

theorem pairwise_stableSort {β : Type} [LinearOrder β] (k : α → β) (sb : α → α → Bool)
    (hsb : ∀ a b, sb a b = true ↔ k b < k a) (l : List α) :
    (stableSort sb l).Pairwise (fun a b => k b ≤ k a) := by
  have aux : ∀ (acc : List α), acc.Pairwise (fun a b => k b ≤ k a) →
      (l.foldl (fun acc y => stableInsert sb y acc) acc).Pairwise
        (fun a b => k b ≤ k a) := by
    induction l with
    | nil => intro acc hacc; simpa using hacc
    | cons z zs ih =>
      intro acc hacc
      rw [List.foldl_cons]
      exact ih _ (pairwise_stableInsert k sb hsb z acc hacc)
  exact aux [] (by simp)

theorem pySplit_ne_nil {c : Char} {l : List Char} : pySplit c l ≠ [] := by
  cases l with
  | nil => simp [pySplit]
  | cons ch rest =>
    rw [pySplit]
    by_cases h : ch = c
    · simp [h]
    · simp only [h, if_false]
      cases pySplit c rest <;> simp

theorem pySplit_of_not_mem {c : Char} {l : List Char} (h : c ∉ l) : pySplit c l = [l] := by
  induction l with
  | nil => rfl
  | cons ch rest ih =>
    rw [pySplit]
    have hne : ¬ ch = c := fun he => h (he ▸ List.mem_cons_self ch rest)
    have hrest : c ∉ rest := fun hm => h (List.mem_cons_of_mem ch hm)
    rw [if_neg hne, ih hrest]

theorem pySplit_length_ge_two {c : Char} {l : List Char} (h : c ∈ l) :
    2 ≤ (pySplit c l).length := by
  induction l with
  | nil => cases h
  | cons ch rest ih =>
    rw [pySplit]
    by_cases hc : ch = c
    · rw [if_pos hc]
      have h1 : 1 ≤ (pySplit c rest).length := by
        cases hr : pySplit c rest with
        | nil => exact absurd hr pySplit_ne_nil
        | cons g gs => simp
      simpa using h1
    · rw [if_neg hc]
      have hmem : c ∈ rest := by
        rcases List.mem_cons.mp h with rfl | hm
        · exact absurd rfl hc
        · exact hm
      cases hr : pySplit c rest with
      | nil => exact absurd hr pySplit_ne_nil
      | cons g gs =>
        have := ih hmem
        rw [hr] at this
        simpa using this

theorem getLastD_pySplit_append {c : Char} (xs ys : List Char) :
    (pySplit c (xs ++ c :: ys)).getLastD [] = (pySplit c ys).getLastD [] := by
  induction xs with
  | nil =>
    rw [List.nil_append, pySplit, if_pos rfl, List.getLastD_cons]
  | cons ch rest ih =>
    rw [List.cons_append, pySplit]
    by_cases h : ch = c
    · rw [if_pos h]
      rw [List.getLastD_cons]
      exact ih
    · rw [if_neg h]
      have hmem : c ∈ rest ++ c :: ys := List.mem_append_right _ (List.mem_cons_self c ys)
      cases hs : pySplit c (rest ++ c :: ys) with
      | nil => exact absurd hs pySplit_ne_nil
      | cons g gs =>
        cases gs with
        | nil =>
          have h2 := pySplit_length_ge_two hmem
          rw [hs] at h2
          simp at h2
        | cons g2 gs2 =>
          rw [← ih, hs, List.getLastD_cons, List.getLastD_cons, List.getLastD_cons,
            List.getLastD_cons]

theorem normalize_patients_length {ps : List RawPatient} {rs : List PatientRow}
    (h : normalize_patients ps = .ok rs) : rs.length = ps.length := by
  induction ps generalizing rs with
  | nil =>
    rw [normalize_patients] at h
    simp only [Except.ok.injEq] at h
    rw [← h]
    rfl
  | cons p ps ih =>
    rw [normalize_patients] at h
    cases h1 : normalize_patient p with
    | error e =>
      rw [h1] at h
      simp only [Bind.bind, Except.instMonad, Except.bind, Functor.map, Except.map] at h
      exact Except.noConfusion h
    | ok r =>
      rw [h1] at h
      cases h2 : normalize_patients ps with
      | error e =>
        rw [h2] at h
        simp only [Bind.bind, Except.instMonad, Except.bind, Functor.map, Except.map] at h
        exact Except.noConfusion h
      | ok rs2 =>
        rw [h2] at h
        simp only [Bind.bind, Except.instMonad, Except.bind, Functor.map, Except.map,
          pure, Except.pure, Except.ok.injEq] at h
        rw [← h, List.length_cons, ih h2, List.length_cons]

theorem load_and_normalize_ok {d : RawData} {ps : List PatientRow} {os : List ObsRow}
    {ms : List MedRow} {als : List AllergyRow}
    (h : load_and_normalize_data d = .ok (ps, os, ms, als)) :
    normalize_patients (d.patients.getD []) = .ok ps ∧
    os = normalize_observations (d.observations.getD []) ∧
    ms = normalize_medications (d.medications.getD []) ∧
    normalize_allergies (d.allergies.getD []) = .ok als := by
  rw [load_and_normalize_data] at h
  cases h1 : normalize_patients (d.patients.getD []) with
  | error e =>
    rw [h1] at h
    simp only [Bind.bind, Except.instMonad, Except.bind, Functor.map, Except.map] at h
    exact Except.noConfusion h
  | ok ps0 =>
    rw [h1] at h
    cases h2 : normalize_allergies (d.allergies.getD []) with
    | error e =>
      rw [h2] at h
      simp only [Bind.bind, Except.instMonad, Except.bind, Functor.map, Except.map] at h
      exact Except.noConfusion h
    | ok als0 =>
      rw [h2] at h
      simp only [Bind.bind, Except.instMonad, Except.bind, Functor.map, Except.map,
        pure, Except.pure, Except.ok.injEq, Prod.mk.injEq] at h
      obtain ⟨hps, hos, hms, hals⟩ := h
      refine ⟨?_, hos.symm, hms.symm, ?_⟩
      · rw [← hps]
      · rw [← hals]

theorem score_ok_spec {today : PDate} {d : RawData} {rows : List MergedRow} {s : RiskSummary}
    (h : score_patient_risks today d = .ok (rows, s)) :
    s = make_summary rows ∧
    ∃ ps enriched labs,
      normalize_patients (d.patients.getD []) = .ok ps ∧
      enrich_patient_data today ps = .ok enriched ∧
      get_latest_lab_values (normalize_observations (d.observations.getD [])) = .ok labs ∧
      rows = enriched.map (mergeRow (calculate_combined_risk
        (apply_cardiovascular_risk_rule (apply_diabetes_risk_rule labs)))) := by
  rw [score_patient_risks] at h
  cases hL : load_and_normalize_data d with
  | error e =>
    rw [hL] at h
    simp only [Bind.bind, Except.instMonad, Except.bind, Functor.map, Except.map] at h
    exact Except.noConfusion h
  | ok t =>
    obtain ⟨ps, os, ms, als⟩ := t
    obtain ⟨hps, hos, hms, hals⟩ := load_and_normalize_ok hL
    rw [hL] at h
    simp only [Bind.bind, Except.instMonad, Except.bind] at h
    cases hE : enrich_patient_data today ps with
    | error e =>
      rw [hE] at h
      simp only [Bind.bind, Except.instMonad, Except.bind, Functor.map, Except.map] at h
      exact Except.noConfusion h
    | ok enriched =>
      rw [hE] at h
      cases hG : get_latest_lab_values os with
      | error e =>
        rw [hG] at h
        simp only [Bind.bind, Except.instMonad, Except.bind, Functor.map, Except.map] at h
        exact Except.noConfusion h
      | ok labs =>
        rw [hG] at h
        simp only [Bind.bind, Except.instMonad, Except.bind, Functor.map, Except.map,
          pure, Except.pure, Except.ok.injEq, Prod.mk.injEq] at h
        obtain ⟨hrows, hs⟩ := h
        subst hos
        refine ⟨by rw [← hs, ← hrows], ps, enriched, labs, hps, hE, hG, hrows.symm⟩

theorem length_filterMap_risk_category (rows : List MergedRow) :
    (rows.filterMap (fun r => r.risk_category)).length =
      (rows.filter (fun r => r.risk_category.isSome)).length := by
  induction rows with
  | nil => rfl
  | cons r t ih =>
    cases h : r.risk_category with
    | none => simp [List.filterMap_cons, List.filter_cons, h, ih]
    | some c => simp [List.filterMap_cons, List.filter_cons, h, ih]

theorem sumCounts_value_counts (rows : List MergedRow) :
    sumCounts (value_counts_categories rows) =
      (rows.filterMap (fun r => r.risk_category)).length := by
  rw [sumCounts, value_counts_categories, List.map_map]
  exact List.sum_map_count_dedup_eq_length _

/-- C1: the claim (and the spec) require that with zero patients the
summary percentages are a defined 0.0 and the high-risk report an empty
collection; the code instead fails at runtime.  On an input whose
patients collection is empty (observations non-empty), score_patient_risks
raises KeyError, because the patient DataFrame built from an empty list
has no birthdate column for enrich_patient_data to read; the summary with
its percentages is never produced.  This theorem evaluates the pipeline
at the failing input. -/
theorem c1_zero_patients_raises :
    (score_patient_risks d2026 c1Data).isOk = false ∧
    score_patient_risks d2026 c1Data = .error "KeyError: birthdate" :=
  ⟨rfl, rfl⟩

/-- C6 counterexample: patient120 carries the valid birthdate 1906-01-01
and is aged exactly 120 on the processing date, yet is assigned no age
bracket at all: the top pd.cut bin is [65, 120), not the claimed
[65, infinity), so this patient falsifies the claimed bracket boundaries. -/
theorem c6_counterexample :
    (enrichRow d2026 patient120).age = some 120 ∧
    (enrichRow d2026 patient120).age_group = none ∧
    (enrichRow d2026 patient120).age_group ≠ some "65+" :=
  ⟨rfl, rfl, by decide⟩

theorem age_group_of_some (a : Int) :
    age_group_of (some a) =
      if 0 ≤ a ∧ a < 18 then some "0-18"
      else if 18 ≤ a ∧ a < 35 then some "19-35"
      else if 35 ≤ a ∧ a < 50 then some "36-50"
      else if 50 ≤ a ∧ a < 65 then some "51-65"
      else if 65 ≤ a ∧ a < 120 then some "65+"
      else none := rfl

/-- C6 amended: age brackets are the half-open left-inclusive bins
[0,18), [18,35), [35,50), [50,65), [65,120): a patient aged exactly 18,
35, 50 or 65 lands in the next-higher bracket, never the lower one, and
every age in [65,120) gets the top label; but an age of 120 or more
(still a valid birthdate) receives no bracket. -/
theorem c6_amended (today : PDate) (p : PatientRow) (a : Int)
    (h : (enrichRow today p).age = some a) :
    (a = 18 → (enrichRow today p).age_group = some "19-35") ∧
    (a = 35 → (enrichRow today p).age_group = some "36-50") ∧
    (a = 50 → (enrichRow today p).age_group = some "51-65") ∧
    (a = 65 → (enrichRow today p).age_group = some "65+") ∧
    (65 ≤ a → a < 120 → (enrichRow today p).age_group = some "65+") ∧
    (120 ≤ a → (enrichRow today p).age_group = none) := by
  have hca : calculate_age today p.birthdate = some a := h
  have hg : (enrichRow today p).age_group = age_group_of (some a) := by
    show age_group_of (calculate_age today p.birthdate) = age_group_of (some a)
    rw [hca]
  refine ⟨?_, ?_, ?_, ?_, ?_, ?_⟩
  · intro h1; subst h1; rw [hg]; rfl
  · intro h1; subst h1; rw [hg]; rfl
  · intro h1; subst h1; rw [hg]; rfl
  · intro h1; subst h1; rw [hg]; rfl
  · intro h1 h2; rw [hg, age_group_of_some]; split_ifs <;> first | rfl | omega
  · intro h1; rw [hg, age_group_of_some]; split_ifs <;> first | rfl | omega

/-- C6 amended witness: the boundary patient aged exactly 18 lands in the
19-35 bracket, the upper one. -/
theorem c6_amended_witness :
    (enrichRow d2026 patient18).age_group = some "19-35" :=
  (c6_amended d2026 patient18 18 rfl).1 rfl

/-- C8: for every row, risk_reasons is exactly the "; "-join of the fixed
sentence of each triggered rule, in rule-declaration order (diabetes
first, then cardiovascular), with no trailing separator; in particular a
row with only the diabetes rule triggered reads exactly
Diabetes Risk (HbA1c >= 6.5). -/
theorem c8_reasons (r : RuleRow) :
    (combinedRow r).risk_reasons =
      String.intercalate "; "
        ((if r.diabetes_risk then ["Diabetes Risk (HbA1c >= 6.5)"] else []) ++
         (if r.cardiovascular_risk then ["Cardiovascular Risk (Cholesterol >= 240)"] else [])) := by
  cases hd : r.diabetes_risk <;> cases hc : r.cardiovascular_risk <;>
    simp only [combinedRow, hd, hc, if_true, if_false] <;> rfl

/-- C9 counterexample: the malformed patient reference patient-7, which is
not of the form Patient/<id>, resolves to the non-empty foreign key
patient-7 rather than the empty key the claim requires for every
malformed reference. -/
theorem c9_counterexample :
    (normalize_observation rawObsBadRef).patient_id = "patient-7" ∧
    (normalize_observation rawObsBadRef).patient_id ≠ "" :=
  ⟨rfl, by decide⟩

/-- C9 amended: an absent or empty reference yields an empty foreign key,
and a reference of the form Patient/<id> (id without a path separator)
yields <id>; but any other non-empty reference yields its last
slash-separated segment, and in particular a slash-free malformed
reference yields the whole reference, not the empty key. -/
theorem c9_amended :
    (∀ o : RawObservation, (o.subject.getD { reference := none }).reference.getD "" = "" →
      (normalize_observation o).patient_id = "") ∧
    (∀ i : String, '/' ∉ i.data → extractPatientId ("Patient/" ++ i) = i) ∧
    (∀ s : String, s ≠ "" → '/' ∉ s.data → extractPatientId s = s) := by
  refine ⟨?_, ?_, ?_⟩
  · intro o h
    show extractPatientId ((o.subject.getD { reference := none }).reference.getD "") = ""
    rw [h]
    rfl
  · intro i h
    have hne : ("Patient/" ++ i) ≠ "" := by
      intro he
      have hd := congrArg String.data he
      rw [String.data_append] at hd
      exact absurd (List.append_eq_nil.mp hd).1 (by decide)
    rw [extractPatientId, if_neg hne]
    have hlit : "Patient/".data = "Patient".data ++ ['/'] := by decide
    have hdata : ("Patient/" ++ i).data = "Patient".data ++ '/' :: i.data := by
      rw [String.data_append, hlit, List.append_assoc]
      rfl
    rw [hdata, getLastD_pySplit_append, pySplit_of_not_mem h]
    rfl
  · intro s hne h
    rw [extractPatientId, if_neg hne, pySplit_of_not_mem h]
    rfl

/-- C9 amended witness: a well-formed reference resolves to its id
segment. -/
theorem c9_amended_witness : extractPatientId ("Patient/" ++ "patient-3") = "patient-3" :=
  c9_amended.2.1 "patient-3" (by decide)

/-- C10: on an input whose observations collection is absent or empty
while the patients collection is non-empty, score_patient_risks raises
(the observation DataFrame built from an empty list has no code column
for get_latest_lab_values to filter on) instead of returning per-patient
records with absent risk flags: the pipeline is not total on empty
observation collections. -/
theorem c10_empty_observations_raises (today : PDate) (d : RawData)
    (hobs : d.observations = none ∨ d.observations = some [])
    (hps : d.patients.getD [] ≠ []) :
    (score_patient_risks today d).isOk = false := by
  rw [score_patient_risks]
  cases hL : load_and_normalize_data d with
  | error e => rfl
  | ok t =>
    obtain ⟨ps, os, ms, als⟩ := t
    obtain ⟨hps2, hos, _, _⟩ := load_and_normalize_ok hL
    have hosnil : os = [] := by
      rcases hobs with h | h <;> rw [hos, h] <;> rfl
    have hpsne : ps ≠ [] := by
      intro he
      apply hps
      have hlen := normalize_patients_length hps2
      rw [he] at hlen
      exact List.length_eq_zero.mp hlen.symm
    subst hosnil
    cases ps with
    | nil => exact absurd rfl hpsne
    | cons p pt => rfl

/-- C10 witness: one well-formed patient and an absent observations
collection make the pipeline fail. -/
theorem c10_witness : (score_patient_risks d2026 c10wData).isOk = false :=
  c10_empty_observations_raises d2026 c10wData (Or.inl rfl) (by decide)

theorem isOk_iff_exists {ε α : Type} {e : Except ε α} : e.isOk = true ↔ ∃ v, e = .ok v := by
  cases e <;> simp [Except.isOk, Except.toBool]

theorem getIndex0_ok {α : Type} {field : Option (List α)} (dflt : α) (h : field ≠ some []) :
    ∃ x, getIndex0 field dflt = .ok x := by
  cases field with
  | none => exact ⟨dflt, rfl⟩
  | some l =>
    cases l with
    | nil => exact absurd rfl h
    | cons x xs => exact ⟨x, rfl⟩

theorem normalize_patient_ok {p : RawPatient} (h1 : p.name ≠ some []) (h2 : p.address ≠ some []) :
    ∃ r, normalize_patient p = .ok r := by
  obtain ⟨n, hn⟩ := getIndex0_ok { given := none, family := none } h1
  obtain ⟨ad, had⟩ := getIndex0_ok { city := none, state := none, postalCode := none } h2
  rw [normalize_patient, hn]
  simp only [Bind.bind, Except.instMonad, Except.bind]
  rw [had]
  exact ⟨_, rfl⟩

theorem normalize_patients_isOk {ps : List RawPatient}
    (hp : ∀ p ∈ ps, p.name ≠ some [] ∧ p.address ≠ some []) :
    (normalize_patients ps).isOk = true := by
  induction ps with
  | nil => rfl
  | cons p pt ih =>
    obtain ⟨h1, h2⟩ := hp p (List.mem_cons_self p pt)
    obtain ⟨r, hr⟩ := normalize_patient_ok h1 h2
    obtain ⟨rs, hrs⟩ := isOk_iff_exists.mp (ih (fun q hq => hp q (List.mem_cons_of_mem p hq)))
    rw [normalize_patients, hr]
    simp only [Bind.bind, Except.instMonad, Except.bind]
    rw [hrs]
    rfl

theorem normalize_allergy_ok {a : RawAllergy}
    (ha : ((a.reaction.getD [{ manifestation := none }]).headD
      { manifestation := none }).manifestation ≠ some []) :
    ∃ r, normalize_allergy a = .ok r := by
  rw [normalize_allergy]
  cases hre : a.reaction.getD [{ manifestation := none }] with
  | nil =>
    simp only [Bind.bind, Except.instMonad, Except.bind, pure, Except.pure]
    exact ⟨_, rfl⟩
  | cons r0 rs =>
    rw [hre] at ha
    have ha2 : r0.manifestation ≠ some [] := ha
    obtain ⟨m0, hm0⟩ := getIndex0_ok ({ text := none } : RawCode) ha2
    simp only [Bind.bind, Except.instMonad, Except.bind, pure, Except.pure]
    rw [hm0]
    exact ⟨_, rfl⟩

theorem normalize_allergies_isOk {als : List RawAllergy}
    (ha : ∀ a ∈ als, ((a.reaction.getD [{ manifestation := none }]).headD
      { manifestation := none }).manifestation ≠ some []) :
    (normalize_allergies als).isOk = true := by
  induction als with
  | nil => rfl
  | cons a at' ih =>
    obtain ⟨r, hr⟩ := normalize_allergy_ok (ha a (List.mem_cons_self a at'))
    obtain ⟨rs, hrs⟩ := isOk_iff_exists.mp (ih (fun q hq => ha q (List.mem_cons_of_mem a hq)))
    rw [normalize_allergies, hr]
    simp only [Bind.bind, Except.instMonad, Except.bind]
    rw [hrs]
    rfl

/-- C2 counterexample: on an input with one patient whose only
observation carries a non-tracked test code, the sum of the values of the
risk-category count mapping is 0 while total_patients is 1: the claimed
equality fails because value_counts drops the null category of a patient
with no resolved labs. -/
theorem c2_counterexample :
    (score_patient_risks d2026 c2Data).toOption.map
      (fun p => (sumCounts p.2.risk_category_counts, p.2.total_patients)) = some (0, 1) ∧
    (0 : Nat) ≠ 1 :=
  ⟨by decide, by decide⟩

/-- C2 amended: the sum of the values of the risk-category count mapping
equals the number of per-patient rows whose risk category is non-null
(patients with at least one resolved lab value); it is at most
total_patients, with equality exactly when every patient has a non-null
category. -/
theorem c2_amended (today : PDate) (d : RawData) (rows : List MergedRow) (s : RiskSummary)
    (h : score_patient_risks today d = .ok (rows, s)) :
    sumCounts s.risk_category_counts =
      (rows.filter (fun r => r.risk_category.isSome)).length ∧
    sumCounts s.risk_category_counts ≤ s.total_patients := by
  obtain ⟨hs, -⟩ := score_ok_spec h
  subst hs
  constructor
  · rw [show (make_summary rows).risk_category_counts = value_counts_categories rows from rfl,
      sumCounts_value_counts, length_filterMap_risk_category]
  · rw [show (make_summary rows).risk_category_counts = value_counts_categories rows from rfl,
      sumCounts_value_counts, length_filterMap_risk_category,
      show (make_summary rows).total_patients = rows.length from rfl]
    exact List.length_filter_le _ _

/-- C2 amended witness: concrete run with one patient and one matching
glycemic observation. -/
theorem c2_amended_witness :
    sumCounts c2wRun.2.risk_category_counts =
      (c2wRun.1.filter (fun r => r.risk_category.isSome)).length ∧
    sumCounts c2wRun.2.risk_category_counts ≤ c2wRun.2.total_patients :=
  c2_amended d2026 c2wData c2wRun.1 c2wRun.2 rfl

/-- C4 counterexample: a raw patient record whose name field is a present
empty list makes normalization raise IndexError and abort the load,
contrary to the claim that normalization never raises and malformed
records degrade to empty fields. -/
theorem c4_counterexample :
    (normalize_patients [rawPatientEmptyName]).isOk = false ∧
    normalize_patients [rawPatientEmptyName] = .error "IndexError: list index out of range" :=
  ⟨rfl, rfl⟩

/-- C4 amended: absent top-level collections are treated as empty and
absent fields are recovered with empty-string/absent defaults, and
normalization never raises provided no present name or address list of a
patient record is empty and no present manifestation list of an allergy
record first reaction is empty; a present empty such list raises
IndexError. -/
theorem c4_amended (ps : List RawPatient) (als : List RawAllergy)
    (hp : ∀ p ∈ ps, p.name ≠ some [] ∧ p.address ≠ some [])
    (ha : ∀ a ∈ als, ((a.reaction.getD [{ manifestation := none }]).headD
      { manifestation := none }).manifestation ≠ some []) :
    (normalize_patients ps).isOk = true ∧
    (normalize_allergies als).isOk = true ∧
    load_and_normalize_data
      { patients := none, observations := none, medications := none, allergies := none } =
      .ok ([], [], [], []) :=
  ⟨normalize_patients_isOk hp, normalize_allergies_isOk ha, rfl⟩

/-- C4 amended witness: a well-formed patient and a well-formed allergy
record normalize without raising, and the all-absent document loads to
four empty collections. -/
theorem c4_amended_witness :
    (normalize_patients [rawPatientA]).isOk = true ∧
    (normalize_allergies [rawAllergyOk]).isOk = true ∧
    load_and_normalize_data
      { patients := none, observations := none, medications := none, allergies := none } =
      .ok ([], [], [], []) :=
  c4_amended [rawPatientA] [rawAllergyOk] (by decide) (by decide)

/-- C5: every row of the risk-classifier output satisfies: risk_score
equals the count of true risk flags, risk_category equals the fixed
total mapping 0 to Low Risk, 1 to Moderate Risk, 2 to High Risk applied
to the score (scores never exceed 2), and an absent lab value makes the
corresponding rule flag false, never true. -/
theorem c5_risk_invariants (labs : List LabRow) (r : RiskRow)
    (h : r ∈ calculate_combined_risk
      (apply_cardiovascular_risk_rule (apply_diabetes_risk_rule labs))) :
    r.risk_score = (if r.rule.diabetes_risk then 1 else 0) +
      (if r.rule.cardiovascular_risk then 1 else 0) ∧
    r.risk_category = risk_categories r.risk_score ∧
    r.risk_score ≤ 2 ∧
    (r.rule.lab.hba1c_value = none → r.rule.diabetes_risk = false) ∧
    (r.rule.lab.cholesterol_value = none → r.rule.cardiovascular_risk = false) := by
  rw [calculate_combined_risk] at h
  obtain ⟨x3, hx3, rfl⟩ := List.mem_map.mp h
  rw [apply_cardiovascular_risk_rule] at hx3
  obtain ⟨x2, hx2, rfl⟩ := List.mem_map.mp hx3
  rw [apply_diabetes_risk_rule] at hx2
  obtain ⟨lb, hlb, rfl⟩ := List.mem_map.mp hx2
  refine ⟨rfl, rfl, ?_, ?_, ?_⟩
  · show (if (match lb.hba1c_value with
        | some v => decide (v ≥ DIABETES_HBA1C_THRESHOLD)
        | none => false) then 1 else 0) +
      (if (match lb.cholesterol_value with
        | some v => decide (v ≥ CARDIOVASCULAR_CHOLESTEROL_THRESHOLD)
        | none => false) then 1 else 0) ≤ 2
    split_ifs <;> omega
  · intro hnone
    have hn2 : lb.hba1c_value = none := hnone
    show (match lb.hba1c_value with
      | some v => decide (v ≥ DIABETES_HBA1C_THRESHOLD)
      | none => false) = false
    rw [hn2]
  · intro hnone
    have hn2 : lb.cholesterol_value = none := hnone
    show (match lb.cholesterol_value with
      | some v => decide (v ≥ CARDIOVASCULAR_CHOLESTEROL_THRESHOLD)
      | none => false) = false
    rw [hn2]

/-- C5 witness: concrete run on a lab row with a glycemic value of 7 and
no lipid value. -/
theorem c5_witness :
    (c5Run.headD dummyRisk).risk_score =
      (if (c5Run.headD dummyRisk).rule.diabetes_risk then 1 else 0) +
      (if (c5Run.headD dummyRisk).rule.cardiovascular_risk then 1 else 0) ∧
    (c5Run.headD dummyRisk).risk_category = risk_categories (c5Run.headD dummyRisk).risk_score ∧
    (c5Run.headD dummyRisk).risk_score ≤ 2 ∧
    ((c5Run.headD dummyRisk).rule.lab.hba1c_value = none →
      (c5Run.headD dummyRisk).rule.diabetes_risk = false) ∧
    ((c5Run.headD dummyRisk).rule.lab.cholesterol_value = none →
      (c5Run.headD dummyRisk).rule.cardiovascular_risk = false) :=
  c5_risk_invariants [labP1] (c5Run.headD dummyRisk) (by decide)

theorem mem_latest_series {codeLower : String} {obs : List ObsRow} {sr : SeriesRow}
    (h : sr ∈ latest_series codeLower obs) :
    ∃ o ∈ obs, pyLower o.code = codeLower ∧ o.patient_id = sr.patient_id := by
  rw [latest_series] at h
  obtain ⟨pid, hpid, hfr⟩ := List.mem_map.mp h
  rw [distinctAsc, mem_stableSort, List.mem_dedup] at hpid
  obtain ⟨o, ho, hpid0⟩ := List.mem_map.mp hpid
  rw [List.mem_filter] at ho
  refine ⟨o, ho.1, by simpa using ho.2, ?_⟩
  rw [← hfr, hpid0]
  rfl

theorem filterMap_value_head {l : List ObsRow} (hp : l.Pairwise (fun a b => b.date ≤ a.date))
    {v : ℚ} (h : (l.filterMap (fun o => o.value)).head? = some v) :
    ∃ o ∈ l, o.value = some v ∧ ∀ o' ∈ l, o'.value ≠ none → o'.date ≤ o.date := by
  induction l with
  | nil => simp at h
  | cons x t ih =>
    rw [List.filterMap_cons] at h
    cases hx : x.value with
    | some w =>
      rw [hx] at h
      simp only [List.head?_cons, Option.some.injEq] at h
      subst h
      refine ⟨x, List.mem_cons_self x t, hx, ?_⟩
      intro o' ho' hne
      rcases List.mem_cons.mp ho' with rfl | ht
      · exact le_refl _
      · exact (List.pairwise_cons.mp hp).1 o' ht
    | none =>
      rw [hx] at h
      obtain ⟨o, ho, hv, hmax⟩ := ih (List.pairwise_cons.mp hp).2 h
      refine ⟨o, List.mem_cons_of_mem x ho, hv, ?_⟩
      intro o' ho' hne
      rcases List.mem_cons.mp ho' with rfl | ht
      · exact absurd hx hne
      · exact hmax o' ht hne

theorem mem_sortedGroup {codeLower : String} {obs : List ObsRow} {pid : String} {o : ObsRow} :
    o ∈ sortedGroup codeLower obs pid ↔
      o ∈ obs ∧ pyLower o.code = codeLower ∧ o.patient_id = pid := by
  rw [sortedGroup, mem_stableSort, List.mem_filter, List.mem_filter]
  simp [and_assoc]

theorem charListLt_iff (as : List Char) : ∀ bs, charListLt as bs = true ↔ as < bs := by
  induction as with
  | nil =>
    intro bs
    cases bs with
    | nil =>
      rw [charListLt]
      constructor
      · intro h; cases h
      · intro h; cases h
    | cons b bs =>
      rw [charListLt]
      constructor
      · intro _; exact List.Lex.nil
      · intro _; rfl
  | cons a as' ih =>
    intro bs
    cases bs with
    | nil =>
      rw [charListLt]
      constructor
      · intro h; cases h
      · intro h; cases h
    | cons b bs =>
      rw [charListLt]
      by_cases hab : a < b
      · rw [if_pos hab]
        constructor
        · intro _; exact List.Lex.rel hab
        · intro _; rfl
      · rw [if_neg hab]
        by_cases hba : b < a
        · rw [if_pos hba]
          constructor
          · intro h; cases h
          · intro h
            cases h with
            | cons h' => exact absurd hba (lt_irrefl _)
            | rel h' => exact absurd h' hab
        · rw [if_neg hba]
          rw [ih bs]
          have heq : a = b := le_antisymm (le_of_not_lt hba) (le_of_not_lt hab)
          subst heq
          constructor
          · intro h; exact List.Lex.cons h
          · intro h
            cases h with
            | cons h' => exact h'
            | rel h' => exact absurd h' hab

theorem pyStrLt_iff (a b : String) : pyStrLt a b = true ↔ a < b := by
  rw [pyStrLt, charListLt_iff]
  exact Iff.symm String.lt_iff_toList_lt

theorem pairwise_sortedGroup (codeLower : String) (obs : List ObsRow) (pid : String) :
    (sortedGroup codeLower obs pid).Pairwise (fun a b => b.date ≤ a.date) := by
  rw [sortedGroup]
  exact pairwise_stableSort (fun o : ObsRow => o.date) _
    (fun a b => pyStrLt_iff b.date a.date) _

theorem latest_series_spec {codeLower : String} {obs : List ObsRow} {sr : SeriesRow}
    (h : sr ∈ latest_series codeLower obs) :
    (∃ o ∈ obs, pyLower o.code = codeLower ∧ o.patient_id = sr.patient_id ∧ o.date = sr.date ∧
      ∀ o' ∈ obs, pyLower o'.code = codeLower → o'.patient_id = sr.patient_id →
        o'.date ≤ sr.date) ∧
    (∀ v, sr.value = some v →
      ∃ o ∈ obs, pyLower o.code = codeLower ∧ o.patient_id = sr.patient_id ∧ o.value = some v ∧
        ∀ o' ∈ obs, pyLower o'.code = codeLower → o'.patient_id = sr.patient_id →
          o'.value ≠ none → o'.date ≤ o.date) := by
  rw [latest_series] at h
  obtain ⟨pid, hpid, hfr⟩ := List.mem_map.mp h
  have hsrpid : sr.patient_id = pid := by rw [← hfr]; rfl
  rw [distinctAsc, mem_stableSort, List.mem_dedup] at hpid
  obtain ⟨o0, ho0m, hpid0⟩ := List.mem_map.mp hpid
  rw [List.mem_filter] at ho0m
  have ho0g : o0 ∈ sortedGroup codeLower obs pid := by
    rw [mem_sortedGroup]
    exact ⟨ho0m.1, by simpa using ho0m.2, hpid0⟩
  have hsrv : sr.value = ((sortedGroup codeLower obs pid).filterMap (fun o => o.value)).head? := by
    rw [← hfr]; rfl
  have hsrd : sr.date = ((sortedGroup codeLower obs pid).map (fun o => o.date)).headD "" := by
    rw [← hfr]; rfl
  constructor
  · cases hsg : sortedGroup codeLower obs pid with
    | nil => rw [hsg] at ho0g; cases ho0g
    | cons h0 t =>
      have hd : sr.date = h0.date := by rw [hsrd, hsg]; rfl
      have hh0 : h0 ∈ sortedGroup codeLower obs pid := by
        rw [hsg]; exact List.mem_cons_self h0 t
      rw [mem_sortedGroup] at hh0
      refine ⟨h0, hh0.1, hh0.2.1, by rw [hh0.2.2, hsrpid], hd.symm, ?_⟩
      intro o' ho' hc' hp'
      have ho'g : o' ∈ sortedGroup codeLower obs pid := by
        rw [mem_sortedGroup]
        exact ⟨ho', hc', by rw [hp', hsrpid]⟩
      rw [hsg] at ho'g
      rw [hd]
      rcases List.mem_cons.mp ho'g with rfl | ht
      · exact le_refl _
      · have hpw := pairwise_sortedGroup codeLower obs pid
        rw [hsg] at hpw
        exact (List.pairwise_cons.mp hpw).1 o' ht
  · intro v hv
    rw [hsrv] at hv
    obtain ⟨o, hog, hval, hmax⟩ := filterMap_value_head (pairwise_sortedGroup codeLower obs pid) hv
    rw [mem_sortedGroup] at hog
    refine ⟨o, hog.1, hog.2.1, by rw [hog.2.2, hsrpid], hval, ?_⟩
    intro o' ho' hc' hp' hne
    apply hmax o' _ hne
    rw [mem_sortedGroup]
    exact ⟨ho', hc', by rw [hp', hsrpid]⟩

theorem patient_mem_latest_series {codeLower : String} {obs : List ObsRow} {o : ObsRow}
    (ho : o ∈ obs) (hc : pyLower o.code = codeLower) :
    ∃ sr ∈ latest_series codeLower obs, sr.patient_id = o.patient_id := by
  rw [latest_series]
  have hm : o ∈ obs.filter (fun o => pyLower o.code == codeLower) :=
    List.mem_filter.mpr ⟨ho, by simp [hc]⟩
  have hpid : o.patient_id ∈ distinctAsc
      ((obs.filter (fun o => pyLower o.code == codeLower)).map (fun o => o.patient_id)) := by
    rw [distinctAsc, mem_stableSort, List.mem_dedup]
    exact List.mem_map_of_mem _ hm
  exact ⟨seriesRowFor codeLower obs o.patient_id, List.mem_map_of_mem _ hpid, rfl⟩

theorem get_latest_ok {obs : List ObsRow} {rows : List LabRow}
    (h : get_latest_lab_values obs = .ok rows) :
    rows = (distinctAsc ((latest_series "hemoglobin a1c" obs).map (fun r => r.patient_id) ++
      (latest_series "cholesterol" obs).map (fun r => r.patient_id))).map
      (labRowFor (latest_series "hemoglobin a1c" obs) (latest_series "cholesterol" obs)) := by
  rw [get_latest_lab_values] at h
  split at h
  · exact Except.noConfusion h
  · simp only [Except.ok.injEq] at h
    exact h.symm

theorem find?_series_some {series : List SeriesRow} {pid : String} {sr : SeriesRow}
    (h : series.find? (fun r => r.patient_id == pid) = some sr) :
    sr ∈ series ∧ sr.patient_id = pid :=
  ⟨List.mem_of_find?_eq_some h, by simpa using List.find?_some h⟩

theorem lab_row_origin {obs : List ObsRow} {rows : List LabRow}
    (h : get_latest_lab_values obs = .ok rows) {x : LabRow} (hx : x ∈ rows) :
    ∃ o ∈ obs, (pyLower o.code = "hemoglobin a1c" ∨ pyLower o.code = "cholesterol") ∧
      o.patient_id = x.patient_id := by
  rw [get_latest_ok h] at hx
  obtain ⟨pid, hpid, hfr⟩ := List.mem_map.mp hx
  have hxpid : x.patient_id = pid := by rw [← hfr]; rfl
  rw [distinctAsc, mem_stableSort, List.mem_dedup, List.mem_append] at hpid
  rcases hpid with hh | hc
  · obtain ⟨sr, hsr, hsrpid⟩ := List.mem_map.mp hh
    obtain ⟨o, ho, hcode, hopid⟩ := mem_latest_series hsr
    exact ⟨o, ho, Or.inl hcode, by rw [hopid, hsrpid, hxpid]⟩
  · obtain ⟨sr, hsr, hsrpid⟩ := List.mem_map.mp hc
    obtain ⟨o, ho, hcode, hopid⟩ := mem_latest_series hsr
    exact ⟨o, ho, Or.inr hcode, by rw [hopid, hsrpid, hxpid]⟩

theorem risk_row_lab {labs : List LabRow} {rr : RiskRow}
    (h : rr ∈ calculate_combined_risk
      (apply_cardiovascular_risk_rule (apply_diabetes_risk_rule labs))) :
    ∃ lb ∈ labs, rr.rule.lab = lb := by
  rw [calculate_combined_risk] at h
  obtain ⟨x3, hx3, rfl⟩ := List.mem_map.mp h
  rw [apply_cardiovascular_risk_rule] at hx3
  obtain ⟨x2, hx2, rfl⟩ := List.mem_map.mp hx3
  rw [apply_diabetes_risk_rule] at hx2
  obtain ⟨lb, hlb, rfl⟩ := List.mem_map.mp hx2
  exact ⟨lb, hlb, rfl⟩

theorem mergeRow_e (risks : List RiskRow) (e : EnrichedRow) : (mergeRow risks e).e = e := by
  rw [mergeRow]
  cases risks.find? (fun r => r.rule.lab.patient_id == e.base.patient_id) <;> rfl

theorem not_mem_filter_high_risk {rows : List MergedRow} {r : MergedRow}
    (h : r.risk_score = none) : r ∉ filter_high_risk_patients rows := by
  intro hmem
  rw [filter_high_risk_patients, mem_stableSort, List.mem_filter] at hmem
  have hpred := hmem.2
  simp [h] at hpred

/-- C3 counterexample: the single patient p-1 of c3Data has no lab
observation at all (the only observation belongs to p-2); its joined
record carries null risk flags, a null risk_score and a null
risk_category, not the false flags, zero score and Low Risk category the
claim requires. -/
theorem c3_counterexample :
    (score_patient_risks d2026 c3Data).toOption.map
      (fun p => p.1.map (fun r => (r.diabetes_risk, r.cardiovascular_risk))) =
      some [(none, none)] ∧
    (score_patient_risks d2026 c3Data).toOption.map
      (fun p => p.1.map (fun r => (r.risk_score, r.risk_category))) =
      some [(none, none)] ∧
    (none : Option String) ≠ some "Low Risk" ∧
    (none : Option Nat) ≠ some 0 ∧
    (none : Option Bool) ≠ some false :=
  ⟨by decide, by decide, by decide, by decide, by decide⟩

/-- C3 amended: a patient none of whose observations appears in the
normalized observation table has null (absent) risk flags, risk score,
risk category and risk reasons in the joined record, and is excluded
from the high-risk filtered report, because a null risk_score does not
satisfy the risk_score greater than zero filter. -/
theorem c3_amended (today : PDate) (d : RawData) (rows : List MergedRow) (s : RiskSummary)
    (h : score_patient_risks today d = .ok (rows, s)) (r : MergedRow) (hr : r ∈ rows)
    (hno : ∀ o ∈ normalize_observations (d.observations.getD []),
      o.patient_id ≠ r.e.base.patient_id) :
    r.diabetes_risk = none ∧ r.cardiovascular_risk = none ∧ r.risk_score = none ∧
    r.risk_category = none ∧ r.risk_reasons = none ∧
    r ∉ filter_high_risk_patients rows := by
  obtain ⟨-, ps, enriched, labs, -, -, hG, hrows⟩ := score_ok_spec h
  subst hrows
  obtain ⟨e, he, hre⟩ := List.mem_map.mp hr
  have hee : (mergeRow (calculate_combined_risk (apply_cardiovascular_risk_rule
      (apply_diabetes_risk_rule labs))) e).e = e := mergeRow_e _ _
  have hfind : (calculate_combined_risk (apply_cardiovascular_risk_rule
      (apply_diabetes_risk_rule labs))).find?
      (fun rr => rr.rule.lab.patient_id == e.base.patient_id) = none := by
    rw [List.find?_eq_none]
    intro rr hrr hbeq
    obtain ⟨lb, hlb, hlbeq⟩ := risk_row_lab hrr
    obtain ⟨o, ho, -, hopid⟩ := lab_row_origin hG hlb
    apply hno o ho
    have hpid : rr.rule.lab.patient_id = e.base.patient_id := by simpa using hbeq
    rw [hopid, ← hlbeq, hpid, ← hre, hee]
  have hscore : r.risk_score = none := by
    rw [← hre, mergeRow, hfind]
  refine ⟨?_, ?_, hscore, ?_, ?_, not_mem_filter_high_risk hscore⟩
  · rw [← hre, mergeRow, hfind]
  · rw [← hre, mergeRow, hfind]
  · rw [← hre, mergeRow, hfind]
  · rw [← hre, mergeRow, hfind]

/-- C3 amended witness: concrete run of c3Data, whose single joined row
has all risk fields null and an empty high-risk report. -/
theorem c3_amended_witness :
    (c3Run.1.headD dummyMerged).diabetes_risk = none ∧
    (c3Run.1.headD dummyMerged).cardiovascular_risk = none ∧
    (c3Run.1.headD dummyMerged).risk_score = none ∧
    (c3Run.1.headD dummyMerged).risk_category = none ∧
    (c3Run.1.headD dummyMerged).risk_reasons = none ∧
    (c3Run.1.headD dummyMerged) ∉ filter_high_risk_patients c3Run.1 :=
  c3_amended d2026 c3Data c3Run.1 c3Run.2 rfl (c3Run.1.headD dummyMerged)
    (by decide) (by decide)

theorem hba1c_present {obs : List ObsRow} {rows : List LabRow}
    (hok : get_latest_lab_values obs = .ok rows)
    {o : ObsRow} (ho : o ∈ obs) (hc : pyLower o.code = "hemoglobin a1c") :
    ∃ x ∈ rows, x.patient_id = o.patient_id ∧ x.hba1c_date ≠ none := by
  obtain ⟨sr, hsr, hsrpid⟩ := patient_mem_latest_series ho hc
  have hpidu : o.patient_id ∈ distinctAsc
      ((latest_series "hemoglobin a1c" obs).map (fun r => r.patient_id) ++
       (latest_series "cholesterol" obs).map (fun r => r.patient_id)) := by
    rw [distinctAsc, mem_stableSort, List.mem_dedup, List.mem_append]
    exact Or.inl (by rw [← hsrpid]; exact List.mem_map_of_mem _ hsr)
  refine ⟨labRowFor (latest_series "hemoglobin a1c" obs) (latest_series "cholesterol" obs)
    o.patient_id, ?_, rfl, ?_⟩
  · rw [get_latest_ok hok]
    exact List.mem_map_of_mem _ hpidu
  · have hfs : ((latest_series "hemoglobin a1c" obs).find?
        (fun r => r.patient_id == o.patient_id)).isSome := by
      rw [List.find?_isSome]
      exact ⟨sr, hsr, by simp [hsrpid]⟩
    show ((latest_series "hemoglobin a1c" obs).find?
      (fun r => r.patient_id == o.patient_id)).map (fun r => r.date) ≠ none
    cases hf : (latest_series "hemoglobin a1c" obs).find?
        (fun r => r.patient_id == o.patient_id) with
    | none => rw [hf] at hfs; cases hfs
    | some sr2 => simp

theorem cholesterol_present {obs : List ObsRow} {rows : List LabRow}
    (hok : get_latest_lab_values obs = .ok rows)
    {o : ObsRow} (ho : o ∈ obs) (hc : pyLower o.code = "cholesterol") :
    ∃ x ∈ rows, x.patient_id = o.patient_id ∧ x.cholesterol_date ≠ none := by
  obtain ⟨sr, hsr, hsrpid⟩ := patient_mem_latest_series ho hc
  have hpidu : o.patient_id ∈ distinctAsc
      ((latest_series "hemoglobin a1c" obs).map (fun r => r.patient_id) ++
       (latest_series "cholesterol" obs).map (fun r => r.patient_id)) := by
    rw [distinctAsc, mem_stableSort, List.mem_dedup, List.mem_append]
    exact Or.inr (by rw [← hsrpid]; exact List.mem_map_of_mem _ hsr)
  refine ⟨labRowFor (latest_series "hemoglobin a1c" obs) (latest_series "cholesterol" obs)
    o.patient_id, ?_, rfl, ?_⟩
  · rw [get_latest_ok hok]
    exact List.mem_map_of_mem _ hpidu
  · have hfs : ((latest_series "cholesterol" obs).find?
        (fun r => r.patient_id == o.patient_id)).isSome := by
      rw [List.find?_isSome]
      exact ⟨sr, hsr, by simp [hsrpid]⟩
    show ((latest_series "cholesterol" obs).find?
      (fun r => r.patient_id == o.patient_id)).map (fun r => r.date) ≠ none
    cases hf : (latest_series "cholesterol" obs).find?
        (fun r => r.patient_id == o.patient_id) with
    | none => rw [hf] at hfs; cases hfs
    | some sr2 => simp

/-- C7 counterexample: patient p-1 has two glycemic observations, the
more recent one (2023-06-01) with a null value and the older one
(2023-01-01) with value 7.  The resolver does not select the single
maximum-timestamp record (whose value is null): it returns the date of
the newest record together with the value 7 of the older record, because
groupby first() takes the first non-null entry of each column
separately. -/
theorem c7_counterexample :
    (get_latest_lab_values [oNullJun, oSevenJan]).toOption.map
      (fun l => l.map (fun r => (r.patient_id, r.hba1c_value, r.hba1c_date))) =
      some [("p-1", some (mkRat 7 1), some "2023-06-01")] ∧
    oNullJun.value = none ∧ oNullJun.date = "2023-06-01" ∧
    oSevenJan.value = some (mkRat 7 1) ∧ oSevenJan.date = "2023-01-01" ∧
    pyLower oNullJun.code = "hemoglobin a1c" ∧ pyLower oSevenJan.code = "hemoglobin a1c" ∧
    (some (mkRat 7 1) : Option ℚ) ≠ none :=
  ⟨by decide, rfl, rfl, rfl, rfl, by decide, by decide, by decide⟩

/-- C7 amended: on the claim example (glycemic values dated 2023-01-01
and 2023-06-01) the resolver yields the 2023-06-01 value, and in general
for every output row: the row stems from some case-insensitively
matching observation of that patient; a non-null resolved date is the
maximum matching timestamp of that patient under lexicographic ISO-date
ordering; a non-null resolved value is the value of a matching record
that is the most recent one carrying a non-null value (this record is
the maximum-timestamp record whenever that record has a value); a
patient with no matching observation in either series is absent; and a
patient with a matching observation in one series appears in the outer
join with that series resolved even if absent from the other. -/
theorem c7_amended :
    (get_latest_lab_values [oJan, oJun, oCholP2] = .ok c7Run ∧
     c7Run.map (fun x => (x.patient_id, x.hba1c_value, x.hba1c_date)) =
       [("p-1", some (mkRat 8 1), some "2023-06-01"), ("p-2", none, none)] ∧
     c7Run.map (fun x => (x.cholesterol_value, x.cholesterol_date)) =
       [(none, none), (some (mkRat 250 1), some "2023-03-01")]) ∧
    ∀ (obs : List ObsRow) (rows : List LabRow), get_latest_lab_values obs = .ok rows →
      (∀ x ∈ rows,
        (∃ o ∈ obs, (pyLower o.code = "hemoglobin a1c" ∨ pyLower o.code = "cholesterol") ∧
          o.patient_id = x.patient_id) ∧
        (∀ d', x.hba1c_date = some d' →
          ∃ o ∈ obs, pyLower o.code = "hemoglobin a1c" ∧ o.patient_id = x.patient_id ∧
            o.date = d' ∧
            ∀ o' ∈ obs, pyLower o'.code = "hemoglobin a1c" → o'.patient_id = x.patient_id →
              o'.date ≤ d') ∧
        (∀ v, x.hba1c_value = some v →
          ∃ o ∈ obs, pyLower o.code = "hemoglobin a1c" ∧ o.patient_id = x.patient_id ∧
            o.value = some v ∧
            ∀ o' ∈ obs, pyLower o'.code = "hemoglobin a1c" → o'.patient_id = x.patient_id →
              o'.value ≠ none → o'.date ≤ o.date) ∧
        (∀ d', x.cholesterol_date = some d' →
          ∃ o ∈ obs, pyLower o.code = "cholesterol" ∧ o.patient_id = x.patient_id ∧
            o.date = d' ∧
            ∀ o' ∈ obs, pyLower o'.code = "cholesterol" → o'.patient_id = x.patient_id →
              o'.date ≤ d') ∧
        (∀ v, x.cholesterol_value = some v →
          ∃ o ∈ obs, pyLower o.code = "cholesterol" ∧ o.patient_id = x.patient_id ∧
            o.value = some v ∧
            ∀ o' ∈ obs, pyLower o'.code = "cholesterol" → o'.patient_id = x.patient_id →
              o'.value ≠ none → o'.date ≤ o.date)) ∧
      (∀ o ∈ obs, pyLower o.code = "hemoglobin a1c" →
        ∃ x ∈ rows, x.patient_id = o.patient_id ∧ x.hba1c_date ≠ none) ∧
      (∀ o ∈ obs, pyLower o.code = "cholesterol" →
        ∃ x ∈ rows, x.patient_id = o.patient_id ∧ x.cholesterol_date ≠ none) := by
  refine ⟨⟨by rfl, by decide, by decide⟩, ?_⟩
  intro obs rows hok
  refine ⟨?_, fun o ho hc => hba1c_present hok ho hc,
    fun o ho hc => cholesterol_present hok ho hc⟩
  intro x hx
  have horigin := lab_row_origin hok hx
  rw [get_latest_ok hok] at hx
  obtain ⟨pid, hpid, hfr⟩ := List.mem_map.mp hx
  have hxpid : x.patient_id = pid := by rw [← hfr]; rfl
  have hhd : x.hba1c_date = ((latest_series "hemoglobin a1c" obs).find?
      (fun r => r.patient_id == pid)).map (fun r => r.date) := by rw [← hfr]; rfl
  have hhv : x.hba1c_value = ((latest_series "hemoglobin a1c" obs).find?
      (fun r => r.patient_id == pid)).bind (fun r => r.value) := by rw [← hfr]; rfl
  have hcd : x.cholesterol_date = ((latest_series "cholesterol" obs).find?
      (fun r => r.patient_id == pid)).map (fun r => r.date) := by rw [← hfr]; rfl
  have hcv : x.cholesterol_value = ((latest_series "cholesterol" obs).find?
      (fun r => r.patient_id == pid)).bind (fun r => r.value) := by rw [← hfr]; rfl
  refine ⟨horigin, ?_, ?_, ?_, ?_⟩
  · intro d' hd'
    rw [hhd] at hd'
    cases hf : (latest_series "hemoglobin a1c" obs).find? (fun r => r.patient_id == pid) with
    | none => rw [hf] at hd'; cases hd'
    | some sr =>
      rw [hf] at hd'
      simp only [Option.map_some', Option.some.injEq] at hd'
      obtain ⟨hmem, hspid⟩ := find?_series_some hf
      obtain ⟨⟨o, ho, hoc, hop, hod, hmax⟩, -⟩ := latest_series_spec hmem
      refine ⟨o, ho, hoc, by rw [hop, hspid, hxpid], by rw [hod, hd'], ?_⟩
      intro o' ho' hc' hp'
      rw [← hd']
      exact hmax o' ho' hc' (by rw [hp', hxpid, ← hspid])
  · intro v hv
    rw [hhv] at hv
    cases hf : (latest_series "hemoglobin a1c" obs).find? (fun r => r.patient_id == pid) with
    | none => rw [hf] at hv; cases hv
    | some sr =>
      rw [hf] at hv
      simp only [Option.some_bind] at hv
      obtain ⟨hmem, hspid⟩ := find?_series_some hf
      obtain ⟨-, hval⟩ := latest_series_spec hmem
      obtain ⟨o, ho, hoc, hop, hov, hmax⟩ := hval v hv
      refine ⟨o, ho, hoc, by rw [hop, hspid, hxpid], hov, ?_⟩
      intro o' ho' hc' hp' hne
      exact hmax o' ho' hc' (by rw [hp', hxpid, ← hspid]) hne
  · intro d' hd'
    rw [hcd] at hd'
    cases hf : (latest_series "cholesterol" obs).find? (fun r => r.patient_id == pid) with
    | none => rw [hf] at hd'; cases hd'
    | some sr =>
      rw [hf] at hd'
      simp only [Option.map_some', Option.some.injEq] at hd'
      obtain ⟨hmem, hspid⟩ := find?_series_some hf
      obtain ⟨⟨o, ho, hoc, hop, hod, hmax⟩, -⟩ := latest_series_spec hmem
      refine ⟨o, ho, hoc, by rw [hop, hspid, hxpid], by rw [hod, hd'], ?_⟩
      intro o' ho' hc' hp'
      rw [← hd']
      exact hmax o' ho' hc' (by rw [hp', hxpid, ← hspid])
  · intro v hv
    rw [hcv] at hv
    cases hf : (latest_series "cholesterol" obs).find? (fun r => r.patient_id == pid) with
    | none => rw [hf] at hv; cases hv
    | some sr =>
      rw [hf] at hv
      simp only [Option.some_bind] at hv
      obtain ⟨hmem, hspid⟩ := find?_series_some hf
      obtain ⟨-, hval⟩ := latest_series_spec hmem
      obtain ⟨o, ho, hoc, hop, hov, hmax⟩ := hval v hv
      refine ⟨o, ho, hoc, by rw [hop, hspid, hxpid], hov, ?_⟩
      intro o' ho' hc' hp' hne
      exact hmax o' ho' hc' (by rw [hp', hxpid, ← hspid]) hne

/-- C7 amended witness: the first row of the concrete example run stems
from a matching observation of the same patient. -/
theorem c7_amended_witness :
    ∃ o ∈ [oJan, oJun, oCholP2],
      (pyLower o.code = "hemoglobin a1c" ∨ pyLower o.code = "cholesterol") ∧
      o.patient_id = (c7Run.headD dummyLab).patient_id :=
  ((c7_amended.2 [oJan, oJun, oCholP2] c7Run c7_amended.1.1).1 (c7Run.headD dummyLab)
    (by decide)).1
